import Mathlib

/-!
Shallow embedding of the `@proton/respawn` package of the proton-web-sdk
repository: the cooldown status checker (`checkRespawnStatus`), the token
balance reader (`getWalletTokens`), the two action submitters
(`recordFreeAccess`, `payForAccess`), the modal choice handler
(`showRespawnModal`'s `onChoose`) and the countdown formatter
(`formatTimeRemaining`).

Modelling conventions: JavaScript time and duration values (unix
milliseconds, cooldown hours) are embedded as `ℤ`; token amounts are exact
rationals `ℚ`, with `parseFloat`'s possible `NaN` embedded as `Option ℚ`
(`none` for `NaN`); promises whose underlying network call can reject are
embedded by passing the call's outcome in as an `Except` argument; `Date`
objects are embedded by their millisecond timestamp; JavaScript
`String.split` with a one-character separator is embedded as a structural
split on the character list.
-/

namespace ProtonRespawn

/-- `session.auth`: actor and permission of the link session. -/
structure Auth where
  actor : String
  permission : String
deriving Repr, DecidableEq

/-- `RespawnConfig` from packages/proton-respawn/src/types.ts. -/
structure RespawnConfig where
  accessContract : String
  accessTable : String
  accessAction : String
  paymentContract : String
  paymentAction : String
  paymentAmount : String
  paymentMemo : Option String := none
  tokenContract : Option String := none
  cooldownHours : Option ℤ := none
deriving Repr, DecidableEq

/-- `TokenBalance` from types.ts; `value` is `parseFloat(amount)`,
with `none` standing for `NaN`. -/
structure TokenBalance where
  contract : String
  symbol : String
  precision : Nat
  amount : String
  value : Option ℚ
deriving Repr, DecidableEq

/-- A row of the on-chain access table: `{account: name, last_access: uint32}`
(`last_access` in unix seconds). -/
structure AccessRow where
  account : String
  last_access : Nat
deriving Repr, DecidableEq

/-- A row of the token contract's per-account balance table:
`{balance: "5.2300 XPR"}`. -/
structure BalanceRow where
  balance : String
deriving Repr, DecidableEq

/-- `RespawnStatus` from types.ts. Date-valued fields are embedded as their
millisecond timestamps; optional fields are `Option`. -/
structure RespawnStatus where
  canRespawnFree : Bool
  lastAccessTime : Option ℤ := none
  cooldownEnds : Option ℤ := none
  timeRemainingMs : Option ℤ := none
  tokens : List TokenBalance
  xprBalance : Option TokenBalance := none
  hasEnoughXpr : Bool
deriving Repr, DecidableEq

/-- Structural split of a character list at every occurrence of `sep`,
matching JavaScript `String.prototype.split` with a one-character
separator (no collapsing of adjacent separators). -/
def splitOnChar (sep : Char) : List Char → List (List Char)
  | [] => [[]]
  | c :: cs =>
      let rest := splitOnChar sep cs
      if c = sep then [] :: rest
      else
        match rest with
        | [] => [[c]]
        | r :: rs => (c :: r) :: rs

/-- JavaScript `s.split(sep)` for a one-character separator, at `String`
level. -/
def jsSplit (sep : Char) (s : String) : List String :=
  (splitOnChar sep s.toList).map String.mk

/-- Numeric value of a list of decimal digits (most significant first). -/
def digitsVal (ds : List Char) : Nat :=
  List.foldl (fun a c => a * 10 + (c.toNat - Char.toNat '0')) 0 ds

/-- JavaScript `parseFloat` restricted to the shapes this codebase feeds it:
leading decimal digits, an optional decimal point with further digits, and
anything after (such as a currency symbol) ignored. `none` models `NaN`. -/
def jsParseFloat (s : String) : Option ℚ :=
  let cs := s.toList
  let intDigits := cs.takeWhile Char.isDigit
  let rest := cs.dropWhile Char.isDigit
  match rest with
  | '.' :: rest2 =>
      let fracDigits := rest2.takeWhile Char.isDigit
      if intDigits.isEmpty && fracDigits.isEmpty then none
      else some (mkRat (digitsVal intDigits * 10 ^ fracDigits.length +
        digitsVal fracDigits) (10 ^ fracDigits.length))
  | _ => if intDigits.isEmpty then none else some (mkRat (digitsVal intDigits) 1)

/-- JavaScript `>=` on numbers that may be `NaN` (`none`): any comparison
involving `NaN` is false. -/
def jsGe : Option ℚ → Option ℚ → Bool
  | some a, some b => decide (a ≥ b)
  | _, _ => false

/-- Per-row parsing step of `getWalletTokens` (tokens.ts):
`const [amount, symbol] = row.balance.split(' ')` (a missing second part,
JavaScript `undefined`, is embedded as `""`),
`const decimalPart = amount.split('.')[1] ?? ''`, then build the
`TokenBalance` with `precision = decimalPart.length` and
`value = parseFloat(amount)`. -/
def parseBalanceRow (tokenContract : String) (row : BalanceRow) : TokenBalance :=
  let parts := jsSplit ' ' row.balance
  let amount := parts.headD ""
  let symbol := parts.getD 1 ""
  let decimalPart := (jsSplit '.' amount).getD 1 ""
  { contract := tokenContract
    symbol := symbol
    precision := decimalPart.length
    amount := amount
    value := jsParseFloat amount }

/-- `getWalletTokens` (tokens.ts): the outcome of the
`session.client.get_table_rows` call (code = token contract, scope = actor,
table = "accounts", limit = 100) is passed in as `queryResult`; any failure
of that query is absorbed into the empty list by the `catch`, otherwise each
returned row is parsed in order. -/
def getWalletTokens (tokenContract : String)
    (queryResult : Except String (List BalanceRow)) : List TokenBalance :=
  match queryResult with
  | .error _ => []
  | .ok rows => rows.map (parseBalanceRow tokenContract)

/-- The try/catch absorption used on both read paths of
`checkRespawnStatus` (respawn.ts): a failed call is treated as an empty
row list. -/
def catchEmpty {α : Type} : Except String (List α) → List α
  | .ok xs => xs
  | .error _ => []

/-- `xprBalance?.value ?? 0` from `checkRespawnStatus` (respawn.ts): the
found balance's value (possibly `NaN`, i.e. `none`), or `0` when no XPR
balance was found. -/
def xprValueOrZero : Option TokenBalance → Option ℚ
  | none => some 0
  | some b => b.value

/-- `checkRespawnStatus` (respawn.ts). The outcome of the token-balance
fetch (`getWalletTokens(...)` before its `.catch(() => [])`) is passed as
`tokensResult` and the outcome of the access-table `get_table_rows` call
(lower and upper bound = actor, limit 1) as `queryResult`; `now` is
`Date.now()` in milliseconds. Both failures are absorbed, never
propagated. -/
def checkRespawnStatus (actor : String) (config : RespawnConfig)
    (tokensResult : Except String (List TokenBalance))
    (queryResult : Except String (List AccessRow))
    (now : ℤ) : RespawnStatus :=
  let cooldownMs : ℤ := (config.cooldownHours.getD 24) * 60 * 60 * 1000
  let payAmount := jsParseFloat config.paymentAmount
  let tokens := catchEmpty tokensResult
  let xprBalance := tokens.find? (fun t => t.symbol == "XPR")
  let hasEnoughXpr := jsGe (xprValueOrZero xprBalance) payAmount
  let rows := catchEmpty queryResult
  match rows with
  | [] =>
      { canRespawnFree := true, tokens := tokens, xprBalance := xprBalance,
        hasEnoughXpr := hasEnoughXpr }
  | r :: _ =>
      if r.account ≠ actor then
        { canRespawnFree := true, tokens := tokens, xprBalance := xprBalance,
          hasEnoughXpr := hasEnoughXpr }
      else
        let lastAccessTime : ℤ := (r.last_access : ℤ) * 1000
        let cooldownEnds : ℤ := lastAccessTime + cooldownMs
        let canRespawnFree : Bool := decide (now ≥ cooldownEnds)
        let timeRemainingMs : ℤ := if canRespawnFree then 0 else cooldownEnds - now
        { canRespawnFree := canRespawnFree
          lastAccessTime := some lastAccessTime
          cooldownEnds := some cooldownEnds
          timeRemainingMs := some timeRemainingMs
          tokens := tokens
          xprBalance := xprBalance
          hasEnoughXpr := hasEnoughXpr }

/-- One action of a transaction as built by the action submitters; `data`
is the action's data object as field/value pairs. -/
structure Action where
  account : String
  name : String
  data : List (String × String)
  authorization : List Auth
deriving Repr, DecidableEq

/-- The transaction argument passed to `session.transact`. -/
structure Transaction where
  actions : List Action
deriving Repr, DecidableEq

/-- The transaction built by `recordFreeAccess` (respawn.ts): one action on
`config.accessContract`/`config.accessAction` with data
`{account: session.auth.actor.toString()}`, authorized by `session.auth`. -/
def recordFreeAccess (auth : Auth) (config : RespawnConfig) : Transaction :=
  { actions := [
      { account := config.accessContract
        name := config.accessAction
        data := [("account", auth.actor)]
        authorization := [auth] }] }

/-- The transaction built by `payForAccess` (respawn.ts): one action on
`config.paymentContract`/`config.paymentAction` with data
`{account, quantity: config.paymentAmount, memo: config.paymentMemo ?? 'respawn'}`,
authorized by `session.auth`. -/
def payForAccess (auth : Auth) (config : RespawnConfig) : Transaction :=
  { actions := [
      { account := config.paymentContract
        name := config.paymentAction
        data := [("account", auth.actor),
                 ("quantity", config.paymentAmount),
                 ("memo", config.paymentMemo.getD "respawn")]
        authorization := [auth] }] }

/-- `RespawnOption` from types.ts. -/
inductive RespawnOption where
  | wait
  | pay
deriving Repr, DecidableEq

/-- `RespawnResult` from types.ts; `transactResult` carries the opaque
broadcast result. -/
structure RespawnResult where
  option : RespawnOption
  success : Bool
  transactResult : Option String := none
  error : Option String := none
deriving Repr, DecidableEq

/-- The `onChoose` handler of `showRespawnModal` (modal.ts). The outcomes of
the two possible `session.transact` calls are passed as `Except` arguments
(`.error m` models a rejection whose message is `m`; `.ok tr` a broadcast
result `tr`). `canRespawnFree` is the pre-fetched status's field. Returns
the `RespawnResult` the promise resolves with, paired with the list of
transactions actually submitted on that path. -/
def onChoose (auth : Auth) (config : RespawnConfig) (canRespawnFree : Bool)
    (option : RespawnOption)
    (payOutcome : Except String String)
    (recordOutcome : Except String String) :
    RespawnResult × List Transaction :=
  match option with
  | .pay =>
      match payOutcome with
      | .ok tr =>
          ({ option := .pay, success := true, transactResult := some tr },
           [payForAccess auth config])
      | .error m =>
          ({ option := .pay, success := false, error := some m },
           [payForAccess auth config])
  | .wait =>
      if canRespawnFree then
        match recordOutcome with
        | .ok _ =>
            ({ option := .wait, success := true }, [recordFreeAccess auth config])
        | .error m =>
            ({ option := .wait, success := false, error := some m },
             [recordFreeAccess auth config])
      else
        ({ option := .wait, success := true }, [])

/-- JavaScript `String(n).padStart(2, '0')` for a natural number. -/
def padStart2 (s : String) : String :=
  if s.length ≥ 2 then s
  else String.mk (List.replicate (2 - s.length) '0') ++ s

/-- `formatTimeRemaining` (respawn.ts):
`Math.max(0, Math.floor(ms / 1000))` (the floor is `Int.fdiv` and the
clamp-to-zero together with the move to `ℕ` is `Int.toNat`), decompose into
hours, minutes, seconds, zero-pad each to two digits and join with ":". -/
def formatTimeRemaining (ms : ℤ) : String :=
  let totalSeconds : Nat := (Int.fdiv ms 1000).toNat
  let hours := totalSeconds / 3600
  let minutes := (totalSeconds % 3600) / 60
  let seconds := totalSeconds % 60
  String.intercalate ":" (([hours, minutes, seconds]).map (fun n => padStart2 (toString n)))

/-- The example configuration from the spec's scenario. -/
def exampleConfig : RespawnConfig :=
  { accessContract := "a"
    accessTable := "accounts"
    accessAction := "setaccess"
    paymentContract := "p"
    paymentAction := "unlock"
    paymentAmount := "1.0000 XPR"
    cooldownHours := some 24 }

/-- The token/balance fields of a `checkRespawnStatus` snapshot do not
depend on the access-table branch taken: `tokens` is always the absorbed
token-fetch outcome. -/
theorem checkRespawnStatus_tokens (actor : String) (config : RespawnConfig)
    (tokensResult : Except String (List TokenBalance))
    (queryResult : Except String (List AccessRow)) (now : ℤ) :
    (checkRespawnStatus actor config tokensResult queryResult now).tokens =
      catchEmpty tokensResult := by
  cases queryResult with
  | error e => rfl
  | ok rows =>
    cases rows with
    | nil => rfl
    | cons r rs =>
      by_cases hr : r.account = actor
      · simp [checkRespawnStatus, catchEmpty, hr]
      · simp [checkRespawnStatus, catchEmpty, hr]

/-- `xprBalance` in a `checkRespawnStatus` snapshot is always the first
balance of the absorbed token list whose symbol is `"XPR"`. -/
theorem checkRespawnStatus_xprBalance (actor : String) (config : RespawnConfig)
    (tokensResult : Except String (List TokenBalance))
    (queryResult : Except String (List AccessRow)) (now : ℤ) :
    (checkRespawnStatus actor config tokensResult queryResult now).xprBalance =
      (catchEmpty tokensResult).find? (fun t => t.symbol == "XPR") := by
  cases queryResult with
  | error e => rfl
  | ok rows =>
    cases rows with
    | nil => rfl
    | cons r rs =>
      by_cases hr : r.account = actor
      · simp [checkRespawnStatus, catchEmpty, hr]
      · simp [checkRespawnStatus, catchEmpty, hr]

/-- `hasEnoughXpr` in a `checkRespawnStatus` snapshot is always the
JavaScript comparison `(xprBalance?.value ?? 0) >= parseFloat(paymentAmount)`. -/
theorem checkRespawnStatus_hasEnoughXpr (actor : String) (config : RespawnConfig)
    (tokensResult : Except String (List TokenBalance))
    (queryResult : Except String (List AccessRow)) (now : ℤ) :
    (checkRespawnStatus actor config tokensResult queryResult now).hasEnoughXpr =
      jsGe (xprValueOrZero ((catchEmpty tokensResult).find? (fun t => t.symbol == "XPR")))
        (jsParseFloat config.paymentAmount) := by
  cases queryResult with
  | error e => rfl
  | ok rows =>
    cases rows with
    | nil => rfl
    | cons r rs =>
      by_cases hr : r.account = actor
      · simp [checkRespawnStatus, catchEmpty, hr]
      · simp [checkRespawnStatus, catchEmpty, hr]

/-- C3: `recordFreeAccess` and `payForAccess` each construct a transaction
with exactly one action, authorized by the session's auth;
`recordFreeAccess`'s action data is `{account: session actor}`;
`payForAccess`'s action data has quantity `config.paymentAmount` and memo
`config.paymentMemo` when set, otherwise the literal `"respawn"`. -/
theorem claim_C3 (auth : Auth) (config : RespawnConfig) :
    (recordFreeAccess auth config).actions.length = 1 ∧
    (payForAccess auth config).actions.length = 1 ∧
    (recordFreeAccess auth config).actions.map Action.authorization = [[auth]] ∧
    (payForAccess auth config).actions.map Action.authorization = [[auth]] ∧
    (recordFreeAccess auth config).actions.map Action.data = [[("account", auth.actor)]] ∧
    (payForAccess auth config).actions.map (fun a => a.data.lookup "quantity") =
      [some config.paymentAmount] ∧
    (payForAccess auth config).actions.map (fun a => a.data.lookup "memo") =
      [some (config.paymentMemo.getD "respawn")] := by
  refine ⟨rfl, rfl, rfl, rfl, rfl, ?_, ?_⟩ <;>
    simp [payForAccess, List.lookup]

/-- C4: any rejection of the session's `transact` during `payForAccess` or
`recordFreeAccess` inside `showRespawnModal`'s `onChoose` handler makes the
promise resolve (not reject) with `{option, success: false, error: message}`;
the record path runs only when the pre-fetched status has
`canRespawnFree = true`. -/
theorem claim_C4 (auth : Auth) (config : RespawnConfig) (free : Bool)
    (payOutcome recordOutcome : Except String String) (m : String) :
    (onChoose auth config free .pay (.error m) recordOutcome).1 =
      { option := .pay, success := false, error := some m } ∧
    (onChoose auth config true .wait payOutcome (.error m)).1 =
      { option := .wait, success := false, error := some m } := by
  constructor
  · cases free <;> rfl
  · rfl

/-- C8: any failure of the balance-table query makes `getWalletTokens`
return the empty token list instead of propagating the error, so a
table-read failure is indistinguishable from holding zero tokens. -/
theorem claim_C8 (tokenContract : String) (e : String) :
    getWalletTokens tokenContract (.error e) = [] := rfl

/-- C10: choosing `'wait'` while the pre-fetched status has
`canRespawnFree = false` resolves with `{option: 'wait', success: true}` and
submits no transaction at all; on the `'wait'` path the free-access record
transaction is submitted exactly when `canRespawnFree = true`. -/
theorem claim_C10 (auth : Auth) (config : RespawnConfig)
    (payOutcome recordOutcome : Except String String) :
    onChoose auth config false .wait payOutcome recordOutcome =
      ({ option := .wait, success := true }, []) ∧
    (∀ ro : Except String String,
      (onChoose auth config true .wait payOutcome ro).2 =
        [recordFreeAccess auth config]) := by
  refine ⟨rfl, fun ro => ?_⟩
  cases ro <;> rfl

/-- C6: `formatTimeRemaining` clamps its argument to zero before
decomposition, zero-pads each field to two digits, does not cap hours at
24, and satisfies the spec's sample evaluations. -/
theorem claim_C6 :
    formatTimeRemaining 0 = "00:00:00" ∧
    formatTimeRemaining 3661000 = "01:01:01" ∧
    formatTimeRemaining (-500) = formatTimeRemaining 0 ∧
    (∀ ms : ℤ, formatTimeRemaining ms = formatTimeRemaining (max 0 ms)) ∧
    formatTimeRemaining (25 * 3600000) = "25:00:00" ∧
    formatTimeRemaining (123 * 3600000 + 59 * 60000 + 7000) = "123:59:07" := by
  refine ⟨by decide, by decide, by decide, ?_, by decide, by decide⟩
  intro ms
  rcases le_or_lt 0 ms with hms | hms
  · rw [max_eq_right hms]
  · rw [max_eq_left hms.le]
    have h1 : Int.fdiv ms 1000 < 0 := Int.fdiv_neg' hms (by norm_num)
    have h2 : (Int.fdiv ms 1000).toNat = 0 := Int.toNat_of_nonpos h1.le
    simp [formatTimeRemaining, h2]

/-- C1: with an access-table row for the actor carrying `last_access = t0`
(unix seconds) and effective `cooldownHours = h`, `checkRespawnStatus` at
time `now < t0*1000 + h*3_600_000` returns `canRespawnFree = false` and
`timeRemainingMs = (t0*1000 + h*3_600_000) - now`; at
`now ≥ t0*1000 + h*3_600_000` it returns `canRespawnFree = true` with
`timeRemainingMs = 0`. -/
theorem claim_C1 (actor : String) (config : RespawnConfig)
    (tokensResult : Except String (List TokenBalance))
    (rest : List AccessRow) (t0 : Nat) (h now : ℤ)
    (hh : config.cooldownHours.getD 24 = h) :
    (now < (t0 : ℤ) * 1000 + h * 3600000 →
      (checkRespawnStatus actor config tokensResult
        (.ok (⟨actor, t0⟩ :: rest)) now).canRespawnFree = false ∧
      (checkRespawnStatus actor config tokensResult
        (.ok (⟨actor, t0⟩ :: rest)) now).timeRemainingMs =
        some ((t0 : ℤ) * 1000 + h * 3600000 - now)) ∧
    ((t0 : ℤ) * 1000 + h * 3600000 ≤ now →
      (checkRespawnStatus actor config tokensResult
        (.ok (⟨actor, t0⟩ :: rest)) now).canRespawnFree = true ∧
      (checkRespawnStatus actor config tokensResult
        (.ok (⟨actor, t0⟩ :: rest)) now).timeRemainingMs = some 0) := by
  have hm : (config.cooldownHours.getD 24) * 60 * 60 * 1000 = h * 3600000 := by
    rw [hh]; ring
  constructor
  · intro hlt
    have hnge : ¬ ((t0 : ℤ) * 1000 + h * 3600000 ≤ now) := not_le.mpr hlt
    simp [checkRespawnStatus, catchEmpty, hm, hnge]
  · intro hge
    simp [checkRespawnStatus, catchEmpty, hm, hge]

/-- Witness for C1: the spec's example scenario — row
`{account: 'bob', last_access: 1_700_000_000}`, `cooldownHours = 24`,
`now = (1_700_000_000 + 3600) * 1000` — yields `canRespawnFree = false`
and `timeRemainingMs = 23 * 3_600_000`. -/
theorem claim_C1_witness :
    (checkRespawnStatus "bob" exampleConfig (.ok []) (.ok [⟨"bob", 1700000000⟩])
      1700003600000).canRespawnFree = false ∧
    (checkRespawnStatus "bob" exampleConfig (.ok []) (.ok [⟨"bob", 1700000000⟩])
      1700003600000).timeRemainingMs = some (23 * 3600000) := by
  have hc := (claim_C1 "bob" exampleConfig (.ok []) [] 1700000000 24 1700003600000
    (by decide)).1 (by decide)
  exact ⟨hc.1, hc.2.trans (by decide)⟩

/-- C2: when the access-table query fails, returns no row, or returns a row
whose account differs from the queried actor, `checkRespawnStatus` still
produces a snapshot with `canRespawnFree = true`, the token fields computed
as usual, and `lastAccessTime`, `cooldownEnds`, `timeRemainingMs` all
absent. -/
theorem claim_C2 (actor : String) (config : RespawnConfig)
    (tokensResult : Except String (List TokenBalance))
    (queryResult : Except String (List AccessRow)) (now : ℤ)
    (hfail : (∃ e, queryResult = .error e) ∨ queryResult = .ok [] ∨
      (∃ r rs, queryResult = .ok (r :: rs) ∧ r.account ≠ actor)) :
    (checkRespawnStatus actor config tokensResult queryResult now).canRespawnFree = true ∧
    (checkRespawnStatus actor config tokensResult queryResult now).lastAccessTime = none ∧
    (checkRespawnStatus actor config tokensResult queryResult now).cooldownEnds = none ∧
    (checkRespawnStatus actor config tokensResult queryResult now).timeRemainingMs = none ∧
    (checkRespawnStatus actor config tokensResult queryResult now).tokens =
      catchEmpty tokensResult ∧
    (checkRespawnStatus actor config tokensResult queryResult now).xprBalance =
      (catchEmpty tokensResult).find? (fun t => t.symbol == "XPR") ∧
    (checkRespawnStatus actor config tokensResult queryResult now).hasEnoughXpr =
      jsGe (xprValueOrZero ((catchEmpty tokensResult).find? (fun t => t.symbol == "XPR")))
        (jsParseFloat config.paymentAmount) := by
  rcases hfail with ⟨e, rfl⟩ | rfl | ⟨r, rs, rfl, hne⟩
  · exact ⟨rfl, rfl, rfl, rfl, rfl, rfl, rfl⟩
  · exact ⟨rfl, rfl, rfl, rfl, rfl, rfl, rfl⟩
  · refine ⟨?_, ?_, ?_, ?_, ?_, ?_, ?_⟩ <;> simp [checkRespawnStatus, catchEmpty, hne]

/-- Witness for C2: a failed token fetch and a mismatched-account row still
yield a free-access snapshot with the cooldown fields absent. -/
theorem claim_C2_witness :
    (checkRespawnStatus "bob" exampleConfig (.error "network down")
      (.ok [⟨"alice", 1700000000⟩]) 0).canRespawnFree = true ∧
    (checkRespawnStatus "bob" exampleConfig (.error "network down")
      (.ok [⟨"alice", 1700000000⟩]) 0).lastAccessTime = none ∧
    (checkRespawnStatus "bob" exampleConfig (.error "network down")
      (.ok [⟨"alice", 1700000000⟩]) 0).cooldownEnds = none ∧
    (checkRespawnStatus "bob" exampleConfig (.error "network down")
      (.ok [⟨"alice", 1700000000⟩]) 0).timeRemainingMs = none := by
  have hc := claim_C2 "bob" exampleConfig (.error "network down")
    (.ok [⟨"alice", 1700000000⟩]) 0
    (Or.inr (Or.inr ⟨⟨"alice", 1700000000⟩, [], rfl, by decide⟩))
  exact ⟨hc.1, hc.2.1, hc.2.2.1, hc.2.2.2.1⟩

/-- C9: when a matching access-table row exists and the cooldown has already
expired, the `checkRespawnStatus` snapshot still carries `lastAccessTime`
and `cooldownEnds`, and `timeRemainingMs` is present with value 0, even
though `canRespawnFree` is true. -/
theorem claim_C9 (actor : String) (config : RespawnConfig)
    (tokensResult : Except String (List TokenBalance))
    (rest : List AccessRow) (t0 : Nat) (h now : ℤ)
    (hh : config.cooldownHours.getD 24 = h)
    (hexp : (t0 : ℤ) * 1000 + h * 3600000 ≤ now) :
    (checkRespawnStatus actor config tokensResult
      (.ok (⟨actor, t0⟩ :: rest)) now).canRespawnFree = true ∧
    (checkRespawnStatus actor config tokensResult
      (.ok (⟨actor, t0⟩ :: rest)) now).lastAccessTime = some ((t0 : ℤ) * 1000) ∧
    (checkRespawnStatus actor config tokensResult
      (.ok (⟨actor, t0⟩ :: rest)) now).cooldownEnds =
      some ((t0 : ℤ) * 1000 + h * 3600000) ∧
    (checkRespawnStatus actor config tokensResult
      (.ok (⟨actor, t0⟩ :: rest)) now).timeRemainingMs = some 0 := by
  have hm : (config.cooldownHours.getD 24) * 60 * 60 * 1000 = h * 3600000 := by
    rw [hh]; ring
  refine ⟨?_, ?_, ?_, ?_⟩ <;> simp [checkRespawnStatus, catchEmpty, hm, hexp]

/-- Witness for C9: at exactly the cooldown's end the snapshot is free but
still carries all three cooldown fields, with zero time remaining. -/
theorem claim_C9_witness :
    (checkRespawnStatus "bob" exampleConfig (.ok []) (.ok [⟨"bob", 1700000000⟩])
      1700086400000).canRespawnFree = true ∧
    (checkRespawnStatus "bob" exampleConfig (.ok []) (.ok [⟨"bob", 1700000000⟩])
      1700086400000).lastAccessTime = some 1700000000000 ∧
    (checkRespawnStatus "bob" exampleConfig (.ok []) (.ok [⟨"bob", 1700000000⟩])
      1700086400000).cooldownEnds = some 1700086400000 ∧
    (checkRespawnStatus "bob" exampleConfig (.ok []) (.ok [⟨"bob", 1700000000⟩])
      1700086400000).timeRemainingMs = some 0 := by
  have hc := claim_C9 "bob" exampleConfig (.ok []) [] 1700000000 24 1700086400000
    (by decide) (by decide)
  exact ⟨hc.1, hc.2.1.trans (by decide), hc.2.2.1.trans (by decide), hc.2.2.2⟩

/-- C5: `hasEnoughXpr` in a `checkRespawnStatus` snapshot is true iff the
value of the first balance whose symbol is `"XPR"` (or 0 when no such
balance exists) is at least the numeric portion of `paymentAmount`;
holding exactly the threshold counts as enough since the comparison is
`≥`. -/
theorem claim_C5 (actor : String) (config : RespawnConfig)
    (tokensResult : Except String (List TokenBalance))
    (queryResult : Except String (List AccessRow)) (now : ℤ) (q : ℚ)
    (hq : jsParseFloat config.paymentAmount = some q) :
    (checkRespawnStatus actor config tokensResult queryResult now).xprBalance =
      (checkRespawnStatus actor config tokensResult queryResult now).tokens.find?
        (fun t => t.symbol == "XPR") ∧
    ((checkRespawnStatus actor config tokensResult queryResult now).xprBalance = none →
      ((checkRespawnStatus actor config tokensResult queryResult now).hasEnoughXpr = true ↔
        (0 : ℚ) ≥ q)) ∧
    (∀ b v, (checkRespawnStatus actor config tokensResult queryResult now).xprBalance = some b →
      b.value = some v →
      ((checkRespawnStatus actor config tokensResult queryResult now).hasEnoughXpr = true ↔
        v ≥ q)) := by
  have ht := checkRespawnStatus_tokens actor config tokensResult queryResult now
  have hx := checkRespawnStatus_xprBalance actor config tokensResult queryResult now
  have he := checkRespawnStatus_hasEnoughXpr actor config tokensResult queryResult now
  refine ⟨by rw [ht, hx], ?_, ?_⟩
  · intro hnone
    have hfind := hx.symm.trans hnone
    rw [he, hfind, hq]
    simp [xprValueOrZero, jsGe]
  · intro b v hsome hv
    have hfind := hx.symm.trans hsome
    rw [he, hfind, hq]
    simp [xprValueOrZero, jsGe, hv]

/-- Witness for C5: a wallet holding exactly `1.0000 XPR` against a
`1.0000 XPR` payment amount has enough (boundary inclusive). -/
theorem claim_C5_witness :
    (checkRespawnStatus "bob" exampleConfig
      (.ok [⟨"eosio.token", "XPR", 4, "1.0000", some 1⟩]) (.ok []) 0).hasEnoughXpr =
      true := by
  have hc := (claim_C5 "bob" exampleConfig
      (.ok [⟨"eosio.token", "XPR", 4, "1.0000", some 1⟩]) (.ok []) 0 1 (by decide)).2.2
      ⟨"eosio.token", "XPR", 4, "1.0000", some 1⟩ 1 (by decide) rfl
  exact hc.mpr (by norm_num)

/-- C7: for every row returned by the balance-table query whose balance
string splits on the space into an amount and a symbol, `getWalletTokens`
produces, at the same position, a `TokenBalance` whose precision is the
number of digits after the amount's decimal point and whose value is the
amount parsed as a float; the output has one entry per row in query
order. -/
theorem claim_C7 (tokenContract : String) (rows : List BalanceRow)
    (i : Nat) (hi : i < rows.length) (amt sym ip fp : String)
    (hsplit : jsSplit ' ' rows[i].balance = [amt, sym])
    (hdot : jsSplit '.' amt = [ip, fp]) :
    (getWalletTokens tokenContract (.ok rows)).length = rows.length ∧
    (getWalletTokens tokenContract (.ok rows))[i]? =
      some { contract := tokenContract, symbol := sym, precision := fp.length,
             amount := amt, value := jsParseFloat amt } := by
  constructor
  · simp [getWalletTokens]
  · have hmap : (getWalletTokens tokenContract (.ok rows))[i]? =
        some (parseBalanceRow tokenContract rows[i]) := by
      simp [getWalletTokens, List.getElem?_eq_getElem hi]
    rw [hmap]
    simp [parseBalanceRow, hsplit, hdot]

/-- Witness for C7: the row `{balance: "5.2300 XPR"}` parses to symbol
`"XPR"`, precision 4, amount `"5.2300"` and value `parseFloat("5.2300")`. -/
theorem claim_C7_witness :
    (getWalletTokens "eosio.token" (.ok [⟨"5.2300 XPR"⟩])).length = 1 ∧
    (getWalletTokens "eosio.token" (.ok [⟨"5.2300 XPR"⟩]))[0]? =
      some { contract := "eosio.token", symbol := "XPR", precision := 4,
             amount := "5.2300", value := jsParseFloat "5.2300" } :=
  claim_C7 "eosio.token" [⟨"5.2300 XPR"⟩] 0 (by decide) "5.2300" "XPR" "5" "2300"
    (by decide) (by decide)

end ProtonRespawn
